/-
Verification development for the core simulation engine of a small
3D arcade game ("Meteor Punch Garden"): a player defends creatures on a
bounded stage from falling meteor hazards within a time budget.

The embedding below is a shallow model of the TypeScript sources:
  Meteor / MeteorState        (entities/Meteor.ts, terrain-impact revision)
  MeteorSpawner               (systems/MeteorSpawner.ts)
  Player                      (entities/Player.ts)
  CollisionSystem             (systems/CollisionSystem.ts)
  StateMachine / GameState    (core/StateMachine.ts, core/GameState.ts)
  Game session conditions     (Game.ts: updateGame / checkGameConditions)
  getTerrainHeight            (three/SceneFactory.ts)

Numbers are modelled as real numbers.  JavaScript Math.sqrt / Math.pow /
Math.sin / Math.cos become Real.sqrt / Real.rpow / Real.sin / Real.cos.
Randomness (Math.random draws inside the spawner's target selection) is
modelled by passing the stream of drawn candidate targets as an explicit
argument; no claim below depends on the distribution of the draws.
-/
import Mathlib

set_option maxHeartbeats 1000000

noncomputable section

namespace MeteorGame

/-- Three-component vector, mirroring THREE.Vector3 restricted to the
operations the game code uses. -/
structure Vec3 where
  x : ℝ
  y : ℝ
  z : ℝ

/-- Componentwise addition (THREE.Vector3.add). -/
def vadd (a b : Vec3) : Vec3 := ⟨a.x + b.x, a.y + b.y, a.z + b.z⟩

/-- Componentwise subtraction (THREE.Vector3.sub). -/
def vsub (a b : Vec3) : Vec3 := ⟨a.x - b.x, a.y - b.y, a.z - b.z⟩

/-- Scalar multiplication (THREE.Vector3.multiplyScalar). -/
def vscale (a : Vec3) (c : ℝ) : Vec3 := ⟨a.x * c, a.y * c, a.z * c⟩

/-- Euclidean length (THREE.Vector3.length). -/
def vlength (a : Vec3) : ℝ := Real.sqrt (a.x * a.x + a.y * a.y + a.z * a.z)

/-- Distance between two points (THREE.Vector3.distanceTo). -/
def vdist (a b : Vec3) : ℝ := vlength (vsub a b)

/-- Cross product (THREE.Vector3.crossVectors). -/
def vcross (a b : Vec3) : Vec3 :=
  ⟨a.y * b.z - a.z * b.y, a.z * b.x - a.x * b.z, a.x * b.y - a.y * b.x⟩

/-- Normalisation (THREE.Vector3.normalize): divide by the length, or by 1
when the length is 0 (THREE uses `divideScalar(length || 1)`), so the zero
vector is returned unchanged. -/
def vnormalize (a : Vec3) : Vec3 :=
  if vlength a = 0 then a else vscale a (1 / vlength a)

/-- A sphere, mirroring THREE.Sphere. -/
structure Sphere where
  center : Vec3
  radius : ℝ

/-- Terrain height at (x, z), from SceneFactory.getTerrainHeight.  The plane
geometry is rotated so that plane Y equals -(world Z). -/
def getTerrainHeight (x z : ℝ) : ℝ :=
  Real.sin (x * 0.8) * Real.cos (-z * 0.8) * 0.3 +
  Real.sin (x * 1.5 + 1) * Real.sin (-z * 1.2 + 0.5) * 0.2 +
  Real.cos (x * 0.5 - -z * 0.7) * 0.15

/-- The terrain height is bounded: each summand of getTerrainHeight is a
product of sines/cosines with amplitudes 0.3, 0.2, 0.15. -/
theorem getTerrainHeight_bound (x z : ℝ) : |getTerrainHeight x z| ≤ 0.65 := by
  unfold getTerrainHeight
  have h1 : |Real.sin (x * 0.8) * Real.cos (-z * 0.8) * 0.3| ≤ 0.3 := by
    rw [abs_mul, abs_mul]
    calc |Real.sin (x * 0.8)| * |Real.cos (-z * 0.8)| * |(0.3 : ℝ)| ≤ 1 * 1 * |(0.3 : ℝ)| := by
          gcongr
          · exact Real.abs_sin_le_one _
          · exact Real.abs_cos_le_one _
      _ = 0.3 := by rw [abs_of_nonneg (by norm_num : (0.3:ℝ) ≥ 0)]; ring
  have h2 : |Real.sin (x * 1.5 + 1) * Real.sin (-z * 1.2 + 0.5) * 0.2| ≤ 0.2 := by
    rw [abs_mul, abs_mul]
    calc |Real.sin (x * 1.5 + 1)| * |Real.sin (-z * 1.2 + 0.5)| * |(0.2 : ℝ)|
          ≤ 1 * 1 * |(0.2 : ℝ)| := by
          gcongr <;> exact Real.abs_sin_le_one _
      _ = 0.2 := by rw [abs_of_nonneg (by norm_num : (0.2:ℝ) ≥ 0)]; ring
  have h3 : |Real.cos (x * 0.5 - -z * 0.7) * 0.15| ≤ 0.15 := by
    rw [abs_mul]
    calc |Real.cos (x * 0.5 - -z * 0.7)| * |(0.15 : ℝ)| ≤ 1 * |(0.15 : ℝ)| := by
          gcongr; exact Real.abs_cos_le_one _
      _ = 0.15 := by rw [abs_of_nonneg (by norm_num : (0.15:ℝ) ≥ 0)]; ring
  calc |Real.sin (x * 0.8) * Real.cos (-z * 0.8) * 0.3 +
        Real.sin (x * 1.5 + 1) * Real.sin (-z * 1.2 + 0.5) * 0.2 +
        Real.cos (x * 0.5 - -z * 0.7) * 0.15|
      ≤ |Real.sin (x * 0.8) * Real.cos (-z * 0.8) * 0.3 +
          Real.sin (x * 1.5 + 1) * Real.sin (-z * 1.2 + 0.5) * 0.2| +
        |Real.cos (x * 0.5 - -z * 0.7) * 0.15| := abs_add _ _
    _ ≤ (|Real.sin (x * 0.8) * Real.cos (-z * 0.8) * 0.3| +
          |Real.sin (x * 1.5 + 1) * Real.sin (-z * 1.2 + 0.5) * 0.2|) +
        |Real.cos (x * 0.5 - -z * 0.7) * 0.15| := by
        gcongr
        exact abs_add _ _
    _ ≤ (0.3 + 0.2) + 0.15 := by gcongr
    _ = 0.65 := by norm_num

/-- Lower bound on the terrain height, a corollary of the amplitude bound. -/
theorem getTerrainHeight_lb (x z : ℝ) : -0.65 ≤ getTerrainHeight x z :=
  neg_le_of_abs_le (getTerrainHeight_bound x z)

/-- Upper bound on the terrain height, a corollary of the amplitude bound. -/
theorem getTerrainHeight_ub (x z : ℝ) : getTerrainHeight x z ≤ 0.65 :=
  le_of_abs_le (getTerrainHeight_bound x z)

/-- Lifecycle states of a hazard, from entities/Meteor.ts (enum MeteorState). -/
inductive MeteorState where
  | telegraph
  | falling
  | destroyed
  | exploded
deriving DecidableEq, Repr

/-- A hazard ("meteor"), from entities/Meteor.ts (the revision whose
updateFalling checks the terrain height; the repository also contains an
older debug revision that checks y <= 0).  Rendering-only fields (meshes,
rotation) are omitted; the constants telegraphDuration = 1.0,
meteorRadius = 0.45, explosionRadius = 1.6, spawnHeight = 12 appear
literally in the update functions below. -/
structure Meteor where
  position : Vec3
  velocity : Vec3
  targetPosition : Vec3
  state : MeteorState
  timer : ℝ
  fallSpeed : ℝ

/-- Meteor constructor: target projected to the ground (y = 0), position at
the target's (x, z) at spawn height 12, initial state Telegraph. -/
def Meteor.mk' (targetPos : Vec3) (fallSpeed : ℝ) : Meteor :=
  { position := ⟨targetPos.x, 12, targetPos.z⟩
    velocity := ⟨0, 0, 0⟩
    targetPosition := ⟨targetPos.x, 0, targetPos.z⟩
    state := MeteorState.telegraph
    timer := 0
    fallSpeed := fallSpeed }

/-- Meteor.updateTelegraph: on expiry of the telegraph duration (1.0 s) the
meteor transitions to Falling with velocity aimed at the target.  (The
visual pulse effect is omitted.) -/
def Meteor.updateTelegraph (m : Meteor) : Meteor :=
  if m.timer ≥ 1.0 then
    { m with state := MeteorState.falling
             velocity := vscale (vnormalize (vsub m.targetPosition m.position)) m.fallSpeed }
  else m

/-- Meteor.updateFalling: integrate position by velocity * dt, then explode
when the centre is within the meteor radius (0.45) of the terrain height. -/
def Meteor.updateFalling (m : Meteor) (dt : ℝ) : Meteor :=
  if (vadd m.position (vscale m.velocity dt)).y ≤
      getTerrainHeight (vadd m.position (vscale m.velocity dt)).x
        (vadd m.position (vscale m.velocity dt)).z + 0.45 then
    { m with position := vadd m.position (vscale m.velocity dt)
             state := MeteorState.exploded }
  else
    { m with position := vadd m.position (vscale m.velocity dt) }

/-- Meteor.update: advance the timer, dispatch on the lifecycle state, and
return the updated meteor together with the keep-alive flag the source
returns (false exactly when the state at entry is Destroyed or Exploded). -/
def Meteor.update (m : Meteor) (dt : ℝ) : Meteor × Bool :=
  let m1 : Meteor := { m with timer := m.timer + dt }
  match m1.state with
  | MeteorState.telegraph => (m1.updateTelegraph, true)
  | MeteorState.falling => (m1.updateFalling dt, true)
  | MeteorState.destroyed => (m1, false)
  | MeteorState.exploded => (m1, false)

/-- Meteor.destroy (called by the collision system on a melee hit). -/
def Meteor.destroy (m : Meteor) : Meteor := { m with state := MeteorState.destroyed }

/-- Meteor.getBoundingSphere: sphere at the meteor position with
radius 0.45. -/
def Meteor.getBoundingSphere (m : Meteor) : Sphere := ⟨m.position, 0.45⟩

/-- Meteor.getExplosionSphere: sphere at the target footprint with
radius 1.6. -/
def Meteor.getExplosionSphere (m : Meteor) : Sphere := ⟨m.targetPosition, 1.6⟩

/-- Meteor.canBeDestroyed: only Falling meteors can be destroyed by the
melee action. -/
def Meteor.canBeDestroyed (m : Meteor) : Prop := m.state = MeteorState.falling

/-- Meteor.isValidTarget: a candidate target is valid when it is at least
minDistance (2.0) away from every recently used target. -/
def isValidTarget (newTarget : Vec3) : List Vec3 → Bool
  | [] => true
  | r :: rest => if vdist newTarget r < 2.0 then false else isValidTarget newTarget rest

/-- A difficulty phase window [startTime, endTime) with its spawn interval,
from systems/MeteorSpawner.ts. -/
structure DifficultyPhase where
  startTime : ℝ
  endTime : ℝ
  spawnInterval : ℝ

/-- The three configured difficulty phases. -/
def difficultyPhases : List DifficultyPhase :=
  [⟨0, 20, 1.2⟩, ⟨20, 40, 0.9⟩, ⟨40, 60, 0.7⟩]

/-- MeteorSpawner.getCurrentDifficultyPhase: the first phase whose window
contains the game time, none when the time is beyond all windows. -/
def getCurrentDifficultyPhase (gameTime : ℝ) : List DifficultyPhase → Option DifficultyPhase
  | [] => none
  | ph :: rest =>
    if gameTime ≥ ph.startTime ∧ gameTime < ph.endTime then some ph
    else getCurrentDifficultyPhase gameTime rest

/-- Spawner state, from systems/MeteorSpawner.ts.  The constants
maxRecentTargets = 2 and maxSimultaneousMeteors = 8 appear literally in the
functions below.  Randomness is modelled by a stream of candidate targets
passed to the update. -/
structure SpawnerState where
  meteors : List Meteor
  spawnTimer : ℝ
  gameTime : ℝ
  recentTargets : List Vec3
  debugFrequencyMultiplier : ℝ
  debugMeteorSpeed : ℝ

/-- MeteorSpawner.addRecentTarget: push the target, then evict the oldest
entry when the rolling history exceeds maxRecentTargets (2). -/
def addRecentTarget (recent : List Vec3) (target : Vec3) : List Vec3 :=
  let recent' := recent ++ [target]
  if recent'.length > 2 then recent'.drop 1 else recent'

/-- MeteorSpawner.generateValidTarget's attempt loop: try the candidates in
order; `fuel` counts the remaining random attempts (maxAttempts = 10 at the
top level), `i` indexes the next candidate draw.  When the attempts are
exhausted the source falls back to one more unconstrained random draw. -/
def generateValidTargetAux (recent : List Vec3) (cands : ℕ → Vec3) : ℕ → ℕ → Vec3
  | 0, i => cands i
  | fuel + 1, i =>
    if isValidTarget (cands i) recent then cands i
    else generateValidTargetAux recent cands fuel (i + 1)

/-- MeteorSpawner.generateValidTarget: up to 10 candidate draws constrained
to be far from recent targets, then an unconstrained fallback draw; it
always produces a target. -/
def generateValidTarget (recent : List Vec3) (cands : ℕ → Vec3) : Vec3 :=
  generateValidTargetAux recent cands 10 0

/-- MeteorSpawner.trySpawnMeteor: drop the attempt when the concurrent
hazard count is at the cap (8); otherwise create a meteor at a freshly
selected target (with the current debug fall speed) and record the
target in the recent history. -/
def trySpawnMeteor (s : SpawnerState) (cands : ℕ → Vec3) : SpawnerState :=
  if s.meteors.length ≥ 8 then s
  else
    let target := generateValidTarget s.recentTargets cands
    { s with meteors := s.meteors ++ [Meteor.mk' target s.debugMeteorSpeed]
             recentTargets := addRecentTarget s.recentTargets target }

/-- MeteorSpawner.updateMeteors: run every meteor's lifecycle update
(forEach; no meteor is removed here). -/
def updateMeteors (ms : List Meteor) (dt : ℝ) : List Meteor :=
  ms.map (fun m => (m.update dt).1)

/-- MeteorSpawner.cleanupMeteors: re-run each meteor's update with dt = 0
(the source's "just check state" call) and keep exactly those whose update
returned the keep-alive flag; kept meteors carry the mutations of that
call. -/
def cleanupMeteors (ms : List Meteor) : List Meteor :=
  ms.filterMap (fun m =>
    let r := m.update 0
    if r.2 then some r.1 else none)

/-- MeteorSpawner.update: advance the clocks; when a difficulty window is
active and the cadence accumulator reaches interval * frequency multiplier,
attempt one spawn and reset the accumulator; then run every meteor's
lifecycle update and purge terminal meteors. -/
def spawnerUpdate (s : SpawnerState) (dt : ℝ) (cands : ℕ → Vec3) : SpawnerState :=
  let s1 : SpawnerState := { s with gameTime := s.gameTime + dt, spawnTimer := s.spawnTimer + dt }
  let s2 : SpawnerState :=
    match getCurrentDifficultyPhase s1.gameTime difficultyPhases with
    | some phase =>
      if s1.spawnTimer ≥ phase.spawnInterval * s1.debugFrequencyMultiplier then
        { trySpawnMeteor s1 cands with spawnTimer := 0 }
      else s1
    | none => s1
  let s3 : SpawnerState := { s2 with meteors := updateMeteors s2.meteors dt }
  { s3 with meteors := cleanupMeteors s3.meteors }

/-- MeteorSpawner.reset: clear all meteors, clocks and the target history. -/
def spawnerReset (s : SpawnerState) : SpawnerState :=
  { s with meteors := [], spawnTimer := 0, gameTime := 0, recentTargets := [] }

/-- Per-frame input snapshot, from input/InputManager.ts (InputState); the
held jump/punch booleans are not read by the player, only the edge-triggered
ones, so only those are modelled. -/
structure InputState where
  movementX : ℝ
  movementZ : ℝ
  jumpPressed : Bool
  punchPressed : Bool

/-- Player state, from entities/Player.ts.  Rendering fields (meshes, the
punch indicator) are omitted.  The constants jumpSpeed = 8.5, gravity = -18,
airControlFactor = 0.6, punchDuration = 0.25, punchRadius = 0.6,
punchOffset = 0.7, knockbackDuration = 0.4 appear literally in the update
functions below; moveSpeed is adjustable state (default 4.0). -/
structure PlayerState where
  position : Vec3
  velocity : Vec3
  isGrounded : Bool
  punchActive : Bool
  punchTimer : ℝ
  knockbackTimer : ℝ
  isKnockedBack : Bool
  moveSpeed : ℝ
  direction : Vec3
  punchSphere : Sphere

/-- The stage-bounds clamp at the end of Player.updateMovement: x and z are
moved by velocity * dt and clamped to the 10x10 stage square with a 0.5
margin; y is untouched here. -/
def posClamp (s : PlayerState) (dt : ℝ) : PlayerState :=
  { s with position :=
      ⟨max (-5 + 0.5) (min (5 - 0.5) (s.position.x + s.velocity.x * dt)),
       s.position.y,
       max (-5 + 0.5) (min (5 - 0.5) (s.position.z + s.velocity.z * dt))⟩ }

/-- The camera-relative reprojection of the movement intent in
Player.updateMovement: when a camera-forward direction is supplied it is
normalised, projected to the horizontal plane and re-normalised; the world
movement is cameraRight * intentX + cameraForward * (-intentZ). -/
def worldMovement (inp : InputState) (cam : Option Vec3) : Vec3 :=
  match cam with
  | none => ⟨inp.movementX, 0, inp.movementZ⟩
  | some c =>
    let cf0 := vnormalize c
    let cf := vnormalize ⟨cf0.x, 0, cf0.z⟩
    let cr := vcross cf ⟨0, 1, 0⟩
    ⟨cr.x * inp.movementX + cf.x * (-inp.movementZ),
     cr.y * inp.movementX + cf.y * (-inp.movementZ),
     cr.z * inp.movementX + cf.z * (-inp.movementZ)⟩

/-- The nonzero-intent branch of Player.updateMovement: reproject the
intent, normalise, scale by the ground speed (reduced by the air-control
factor 0.6 while airborne) times dt, divide by dt to store the velocity,
record the facing direction, then clamp the position. -/
def movementActive (s : PlayerState) (dt : ℝ) (inp : InputState) (cam : Option Vec3) :
    PlayerState :=
  let mv := vscale (vnormalize (worldMovement inp cam))
      ((if s.isGrounded = true then s.moveSpeed else s.moveSpeed * 0.6) * dt)
  posClamp
    { s with velocity := ⟨mv.x / dt, s.velocity.y, mv.z / dt⟩
             direction := vnormalize mv } dt

/-- The zero-intent branch of Player.updateMovement: frame-rate-independent
exponential friction (factor Math.pow(0.1, dt)) on the horizontal velocity
while grounded, then the position clamp. -/
def frictionStep (s : PlayerState) (dt : ℝ) : PlayerState :=
  if s.isGrounded = true then
    posClamp
      { s with velocity :=
          ⟨s.velocity.x * Real.rpow 0.1 dt, s.velocity.y, s.velocity.z * Real.rpow 0.1 dt⟩ } dt
  else posClamp s dt

/-- Player.updateMovement: dispatch on whether the movement intent vector
has positive length. -/
def Player.updateMovement (s : PlayerState) (dt : ℝ) (inp : InputState) (cam : Option Vec3) :
    PlayerState :=
  if vlength ⟨inp.movementX, 0, inp.movementZ⟩ > 0 then movementActive s dt inp cam
  else frictionStep s dt

/-- Player.updateJump: a jump edge while grounded sets the vertical velocity
to the jump speed (8.5) and clears the grounded flag. -/
def Player.updateJump (s : PlayerState) (inp : InputState) : PlayerState :=
  if inp.jumpPressed = true ∧ s.isGrounded = true then
    { s with velocity := ⟨s.velocity.x, 8.5, s.velocity.z⟩, isGrounded := false }
  else s

/-- The melee aim direction in Player.updatePunch: the default world
direction (0, 0, -1) when no camera direction is supplied, else the supplied
camera-forward direction normalised, projected to the horizontal plane and
re-normalised.  It reads neither the movement intent nor the stored facing
direction. -/
def punchDirection (cam : Option Vec3) : Vec3 :=
  match cam with
  | none => ⟨0, 0, -1⟩
  | some c =>
    let d0 := vnormalize c
    vnormalize ⟨d0.x, 0, d0.z⟩

/-- The world-space punch sphere positioned punchOffset (0.7) ahead of a
position along the aim direction, with punchRadius 0.6. -/
def punchSphereAt (p : Vec3) (cam : Option Vec3) : Sphere :=
  ⟨vadd p (vscale (punchDirection cam) 0.7), 0.6⟩

/-- The auto-activation step of Player.updatePunch: whenever the player is
airborne with the punch inactive, activate it with the full punch duration
(0.25) and place the punch sphere. -/
def punchAutoActivate (s : PlayerState) (cam : Option Vec3) : PlayerState :=
  if s.isGrounded = false ∧ s.punchActive = false then
    { s with punchActive := true, punchTimer := 0.25
             punchSphere := punchSphereAt s.position cam }
  else s

/-- The timer step of Player.updatePunch: decrement the timer; deactivate
when it reaches zero or the player is grounded, otherwise refresh the punch
sphere at the current position. -/
def punchTick (s : PlayerState) (dt : ℝ) (cam : Option Vec3) : PlayerState :=
  if s.punchActive = true then
    if s.punchTimer - dt ≤ 0 ∨ s.isGrounded = true then
      { s with punchTimer := s.punchTimer - dt, punchActive := false }
    else
      { s with punchTimer := s.punchTimer - dt
               punchSphere := punchSphereAt s.position cam }
  else s

/-- Player.updatePunch: auto-activation followed by the timer step. -/
def Player.updatePunch (s : PlayerState) (dt : ℝ) (cam : Option Vec3) : PlayerState :=
  punchTick (punchAutoActivate s cam) dt cam

/-- The gravity-and-integration part of Player.updatePhysics: constant
gravity -18 on the vertical velocity, then position updated by
velocity * dt (all three components). -/
def integrateStep (s : PlayerState) (dt : ℝ) : PlayerState :=
  let v : Vec3 := ⟨s.velocity.x, s.velocity.y + (-18) * dt, s.velocity.z⟩
  { s with velocity := v, position := vadd s.position (vscale v dt) }

/-- The fall-off-stage check of Player.updatePhysics: below y = -10 the
player respawns at the start pose with zero velocity, airborne. -/
def respawnCheck (s : PlayerState) : PlayerState :=
  if s.position.y < -10 then
    { s with position := ⟨0, 1, 0⟩, velocity := ⟨0, 0, 0⟩, isGrounded := false }
  else s

/-- Player.updatePhysics: gravity integration then the respawn check. -/
def Player.updatePhysics (s : PlayerState) (dt : ℝ) : PlayerState :=
  respawnCheck (integrateStep s dt)

/-- Player.updateGroundCheck: a grounded player is locked to the terrain
height plus the 0.6 player offset with zero vertical velocity; an airborne
player lands (and is locked likewise) exactly when it has reached that
height while not moving upwards. -/
def Player.updateGroundCheck (s : PlayerState) : PlayerState :=
  if s.isGrounded = true then
    { s with position := ⟨s.position.x, getTerrainHeight s.position.x s.position.z + 0.6,
                          s.position.z⟩
             velocity := ⟨s.velocity.x, 0, s.velocity.z⟩ }
  else if s.position.y ≤ getTerrainHeight s.position.x s.position.z + 0.6 ∧
          s.velocity.y ≤ 0 then
    { s with position := ⟨s.position.x, getTerrainHeight s.position.x s.position.z + 0.6,
                          s.position.z⟩
             velocity := ⟨s.velocity.x, 0, s.velocity.z⟩
             isGrounded := true }
  else s

/-- The timer part of Player.updateKnockback: decrement the knockback timer
and clear the knockback flag once it reaches zero. -/
def knockbackTick (s : PlayerState) (dt : ℝ) : PlayerState :=
  if s.knockbackTimer - dt ≤ 0 then
    { s with knockbackTimer := s.knockbackTimer - dt, isKnockedBack := false }
  else { s with knockbackTimer := s.knockbackTimer - dt }

/-- Player.updateKnockback: only the timer, gravity integration and ground
contact run; movement, jump and punch are skipped. -/
def Player.updateKnockback (s : PlayerState) (dt : ℝ) : PlayerState :=
  Player.updateGroundCheck (Player.updatePhysics (knockbackTick s dt) dt)

/-- Player.update: during knockback recovery only updateKnockback runs and
the inputs are never read; otherwise movement, jump, punch, physics and
ground contact run in the source's order. -/
def Player.update (s : PlayerState) (dt : ℝ) (inp : InputState) (cam : Option Vec3) :
    PlayerState :=
  if s.isKnockedBack = true then Player.updateKnockback s dt
  else
    Player.updateGroundCheck
      (Player.updatePhysics
        (Player.updatePunch (Player.updateJump (Player.updateMovement s dt inp cam) inp) dt cam)
        dt)

/-- Player.applyKnockback: velocity becomes normalize(direction) * force
with the vertical component raised to at least 3; the knockback flag and
timer (0.4) are set and the grounded flag cleared. -/
def Player.applyKnockback (s : PlayerState) (direction : Vec3) (force : ℝ) : PlayerState :=
  let v := vscale (vnormalize direction) force
  { s with velocity := ⟨v.x, max v.y 3, v.z⟩
           isKnockedBack := true
           knockbackTimer := 0.4
           isGrounded := false }

/-- Player.getPunchSphere: the punch sphere, only while the punch is
active. -/
def Player.getPunchSphere (s : PlayerState) : Option Sphere :=
  if s.punchActive = true then some s.punchSphere else none

/-- Player.getBoundingSphere: body sphere of radius 0.5 at the player
position. -/
def Player.getBoundingSphere (s : PlayerState) : Sphere := ⟨s.position, 0.5⟩

/-- The magnitude of the horizontal part of the player's velocity. -/
def horizSpeed (s : PlayerState) : ℝ := vlength ⟨s.velocity.x, 0, s.velocity.z⟩

/-- Top-level game phases, from core/GameState.ts (enum GameState). -/
inductive GameState where
  | boot
  | title
  | play
  | result
deriving DecidableEq, Repr

/-- StateMachine.canTransitionTo: the fixed adjacency table
Boot -> Title, Title -> Play, Play -> Result, Result -> Play | Title. -/
def canTransitionTo (current target : GameState) : Bool :=
  match current with
  | GameState.boot => target == GameState.title
  | GameState.title => target == GameState.play
  | GameState.play => target == GameState.result
  | GameState.result => target == GameState.play || target == GameState.title

/-- A lifecycle-callback invocation: onExit of a phase or onEnter of a
phase.  StateMachine.transitionTo is modelled as returning the ordered list
of callbacks it invokes. -/
inductive CbEvent where
  | exits (phase : GameState)
  | enters (phase : GameState)
deriving DecidableEq, Repr

/-- StateMachine.transitionTo: an invalid request leaves the phase unchanged
and invokes no callback (only a console warning is emitted); a valid request
invokes onExit of the old phase (when the old phase's handler has one), sets
the phase, then invokes onEnter of the new phase (when present).
`hasExit`/`hasEnter` record which registered handlers define the optional
callbacks. -/
def transitionTo (hasExit hasEnter : GameState → Bool) (current target : GameState) :
    GameState × List CbEvent :=
  if canTransitionTo current target then
    (target,
      (if hasExit current then [CbEvent.exits current] else []) ++
      (if hasEnter target then [CbEvent.enters target] else []))
  else (current, [])

/-- The adjacency table as the claim states it. -/
def claimTable : List (GameState × GameState) :=
  [(GameState.boot, GameState.title), (GameState.title, GameState.play),
   (GameState.play, GameState.result), (GameState.result, GameState.play),
   (GameState.result, GameState.title)]

/-- The session fields of Game.ts relevant to the terminal conditions:
the countdown timer, the cached alive-creature count (recomputed from the
creature collection while collision events are handled) and the phase held
by the state machine. -/
structure GameSession where
  gameTimer : ℝ
  aliveCreatures : ℕ
  phase : GameState

/-- The phase effect of StateMachine.transitionTo as seen by Game.ts:
the phase changes exactly when the transition is in the adjacency table. -/
def stepPhase (current target : GameState) : GameState :=
  if canTransitionTo current target then target else current

/-- Game.checkGameConditions: the all-creatures-dead condition is checked
first and requests Play -> Result regardless of the timer; otherwise a
timer at or below zero requests Play -> Result; otherwise nothing
changes. -/
def checkGameConditions (g : GameSession) : GameSession :=
  if g.aliveCreatures ≤ 0 then { g with phase := stepPhase g.phase GameState.result }
  else if g.gameTimer ≤ 0 then { g with phase := stepPhase g.phase GameState.result }
  else g

/-- Game.updateGame: the timer is decremented by dt, then the entities and
collision passes run (their net effect on the session is the recomputed
alive-creature count, passed here as `aliveAfterCollisions`), and the
terminal conditions are checked last, after collision resolution. -/
def updateGame (g : GameSession) (dt : ℝ) (aliveAfterCollisions : ℕ) : GameSession :=
  checkGameConditions
    { g with gameTimer := g.gameTimer - dt, aliveCreatures := aliveAfterCollisions }

/-- CollisionSystem.sphereIntersectsSphere: two spheres intersect exactly
when the distance of their centres is at most the sum of the radii
(boundary inclusive). -/
def sphereIntersectsSphere (s1 s2 : Sphere) : Prop :=
  vdist s1.center s2.center ≤ s1.radius + s2.radius

instance (s1 s2 : Sphere) : Decidable (sphereIntersectsSphere s1 s2) :=
  inferInstanceAs (Decidable (vdist s1.center s2.center ≤ s1.radius + s2.radius))

/-- The effect of CollisionSystem.checkPunchVsMeteors on one meteor: a
meteor in the Falling state whose bounding sphere overlaps the punch sphere
is marked Destroyed; any other meteor is left unchanged. -/
def punchHitStep (punchSphere : Sphere) (m : Meteor) : Meteor :=
  if m.state = MeteorState.falling ∧
      sphereIntersectsSphere punchSphere m.getBoundingSphere then
    m.destroy
  else m

/-- CollisionSystem.checkPunchVsMeteors (collision pass 1): nothing happens
without an active punch sphere; with one, every Falling meteor overlapping
it is destroyed. -/
def checkPunchVsMeteors (player : PlayerState) (ms : List Meteor) : List Meteor :=
  match Player.getPunchSphere player with
  | none => ms
  | some ps => ms.map (punchHitStep ps)

/-!  Theorems about the embedded program.  -/

/-- The source's adjacency check agrees with the five-entry table of the
specification. -/
theorem canTransitionTo_iff_mem (c t : GameState) :
    canTransitionTo c t = true ↔ (c, t) ∈ claimTable := by
  cases c <;> cases t <;> decide

/-- C6: a requested phase transition whose (current, target) pair is not in
the fixed adjacency table {Boot->Title, Title->Play, Play->Result,
Result->Play, Result->Title} leaves the current phase unchanged and invokes
no onExit or onEnter callback of any handler; for a pair in the table the
phase is updated and onExit of the old phase is invoked (when the handler
has one) strictly before onEnter of the new phase (when present), as the
returned callback trace records. -/
theorem c6_transition_table (hasExit hasEnter : GameState → Bool)
    (current target : GameState) :
    ((current, target) ∉ claimTable →
      transitionTo hasExit hasEnter current target = (current, [])) ∧
    ((current, target) ∈ claimTable →
      transitionTo hasExit hasEnter current target =
        (target,
          (if hasExit current then [CbEvent.exits current] else []) ++
          (if hasEnter target then [CbEvent.enters target] else []))) := by
  constructor
  · intro h
    unfold transitionTo
    rw [if_neg]
    intro hc
    exact h ((canTransitionTo_iff_mem current target).mp hc)
  · intro h
    unfold transitionTo
    rw [if_pos ((canTransitionTo_iff_mem current target).mpr h)]

/-- Witness for C6: the invalid request Play -> Title is a no-op with an
empty callback trace; the valid request Result -> Title switches the phase
and runs onExit of Result before onEnter of Title. -/
theorem c6_witness :
    ((GameState.play, GameState.title) ∉ claimTable ∧
      transitionTo (fun _ => true) (fun _ => true) GameState.play GameState.title =
        (GameState.play, [])) ∧
    ((GameState.result, GameState.title) ∈ claimTable ∧
      transitionTo (fun _ => true) (fun _ => true) GameState.result GameState.title =
        (GameState.title, [CbEvent.exits GameState.result, CbEvent.enters GameState.title])) := by
  refine ⟨⟨by decide, ?_⟩, ⟨by decide, ?_⟩⟩
  · exact (c6_transition_table (fun _ => true) (fun _ => true)
      GameState.play GameState.title).1 (by decide)
  · have h := (c6_transition_table (fun _ => true) (fun _ => true)
      GameState.result GameState.title).2 (by decide)
    simpa using h

/-- C7: in the Playing phase the terminal conditions are evaluated after
the frame's collision resolution (updateGame checks them last, on the
alive-creature count recomputed by the collision event handling), creature
condition first: an alive-creature count of 0 transitions to Result
regardless of the timer; otherwise a timer at or below 0 transitions to
Result; otherwise the phase stays Play. -/
theorem c7_terminal_conditions (g : GameSession) (dt : ℝ) (alive : ℕ)
    (hp : g.phase = GameState.play) :
    (alive = 0 → (updateGame g dt alive).phase = GameState.result) ∧
    (alive ≠ 0 → g.gameTimer - dt ≤ 0 → (updateGame g dt alive).phase = GameState.result) ∧
    (alive ≠ 0 → 0 < g.gameTimer - dt →
      (updateGame g dt alive).phase = GameState.play ∧
      (updateGame g dt alive).gameTimer = g.gameTimer - dt ∧
      (updateGame g dt alive).aliveCreatures = alive) := by
  unfold updateGame checkGameConditions stepPhase
  refine ⟨?_, ?_, ?_⟩
  · intro h
    simp [h, hp, canTransitionTo]
  · intro h ht
    simp [Nat.pos_of_ne_zero h, Nat.le_zero, h, ht, hp, canTransitionTo]
  · intro h ht
    simp [Nat.le_zero, h, not_le.mpr ht, hp]

/-- Witness for C7: with 0 creatures alive after collisions and 30 seconds
left, the frame ends in Result; with 2 alive and an elapsed timer it also
ends in Result; with 2 alive and time remaining the phase stays Play. -/
theorem c7_witness :
    (updateGame ⟨30, 3, GameState.play⟩ 0.016 0).phase = GameState.result ∧
    (updateGame ⟨0.01, 3, GameState.play⟩ 0.016 2).phase = GameState.result ∧
    ((updateGame ⟨30, 3, GameState.play⟩ 0.016 2).phase = GameState.play ∧
      (updateGame ⟨30, 3, GameState.play⟩ 0.016 2).gameTimer = 30 - 0.016 ∧
      (updateGame ⟨30, 3, GameState.play⟩ 0.016 2).aliveCreatures = 2) := by
  refine ⟨?_, ?_, ?_⟩
  · exact (c7_terminal_conditions ⟨30, 3, GameState.play⟩ 0.016 0 rfl).1 rfl
  · exact (c7_terminal_conditions ⟨0.01, 3, GameState.play⟩ 0.016 2 rfl).2.1
      (by norm_num) (by norm_num)
  · exact (c7_terminal_conditions ⟨30, 3, GameState.play⟩ 0.016 2 rfl).2.2
      (by norm_num) (by norm_num)

/-- The cleanup pass can only remove meteors, never add them. -/
theorem cleanupMeteors_length_le (ms : List Meteor) :
    (cleanupMeteors ms).length ≤ ms.length :=
  List.length_filterMap_le _ _

/-- The lifecycle pass updates every meteor in place, preserving the
count. -/
theorem updateMeteors_length (ms : List Meteor) (dt : ℝ) :
    (updateMeteors ms dt).length = ms.length := by
  simp [updateMeteors]

/-- A spawn attempt never pushes the concurrent count above the cap of 8:
at the cap it is dropped, below the cap it adds exactly one meteor. -/
theorem trySpawnMeteor_length (s : SpawnerState) (cands : ℕ → Vec3)
    (h : s.meteors.length ≤ 8) : (trySpawnMeteor s cands).meteors.length ≤ 8 := by
  unfold trySpawnMeteor
  split
  · exact h
  · rename_i hlt
    simp only [List.length_append, List.length_singleton]
    omega

/-- One spawner frame preserves the concurrency cap. -/
theorem spawnerUpdate_cap (s : SpawnerState) (dt : ℝ) (cands : ℕ → Vec3)
    (h : s.meteors.length ≤ 8) : (spawnerUpdate s dt cands).meteors.length ≤ 8 := by
  unfold spawnerUpdate
  refine le_trans (le_trans (cleanupMeteors_length_le _) (le_of_eq (updateMeteors_length _ _))) ?_
  dsimp only
  split
  · split
    · exact trySpawnMeteor_length _ cands h
    · exact h
  · exact h

/-- C5: for every sequence of frames (arbitrary delta-times and candidate
draws) starting from a reset spawner, and for arbitrary spawn-interval /
frequency-multiplier values, the number of concurrently active hazards
never exceeds the cap of 8; moreover one frame preserves the cap from any
state, and when the cadence fires (an active difficulty window whose
interval times the frequency multiplier has been reached) while the count
is at the cap, the spawn attempt is dropped — no hazard is added — and the
cadence accumulator is still reset to zero. -/
theorem c5_spawn_cap :
    (∀ (s : SpawnerState) (dt : ℝ) (cands : ℕ → Vec3),
      s.meteors.length ≤ 8 → (spawnerUpdate s dt cands).meteors.length ≤ 8) ∧
    (∀ (frames : List (ℝ × (ℕ → Vec3))) (s : SpawnerState),
      (frames.foldl (fun st fr => spawnerUpdate st fr.1 fr.2) (spawnerReset s)).meteors.length
        ≤ 8) ∧
    (∀ (s : SpawnerState) (dt : ℝ) (cands : ℕ → Vec3) (phase : DifficultyPhase),
      8 ≤ s.meteors.length →
      getCurrentDifficultyPhase (s.gameTime + dt) difficultyPhases = some phase →
      phase.spawnInterval * s.debugFrequencyMultiplier ≤ s.spawnTimer + dt →
      (spawnerUpdate s dt cands).spawnTimer = 0 ∧
      (spawnerUpdate s dt cands).meteors.length ≤ s.meteors.length) := by
  have hstep := spawnerUpdate_cap
  refine ⟨hstep, ?_, ?_⟩
  · intro frames s
    have aux : ∀ (fs : List (ℝ × (ℕ → Vec3))) (st : SpawnerState),
        st.meteors.length ≤ 8 →
        (fs.foldl (fun st fr => spawnerUpdate st fr.1 fr.2) st).meteors.length ≤ 8 := by
      intro fs
      induction fs with
      | nil => intro st h; simpa using h
      | cons fr rest ih =>
        intro st h
        exact ih _ (hstep st fr.1 fr.2 h)
    exact aux frames (spawnerReset s) (by simp [spawnerReset])
  · intro s dt cands phase hcap hphase hfire
    have htry : ∀ s' : SpawnerState, 8 ≤ s'.meteors.length →
        trySpawnMeteor s' cands = s' := by
      intro s' h
      unfold trySpawnMeteor
      rw [if_pos h]
    unfold spawnerUpdate
    dsimp only
    rw [hphase]
    dsimp only
    rw [if_pos (show s.spawnTimer + dt ≥ phase.spawnInterval * s.debugFrequencyMultiplier
      from hfire)]
    rw [htry _ (by simpa using hcap)]
    refine ⟨rfl, ?_⟩
    simpa [updateMeteors_length] using
      le_trans (cleanupMeteors_length_le _)
        (le_of_eq (updateMeteors_length s.meteors dt))

/-- A terminal meteor used to fill the spawner to its cap in the C5
witness. -/
def c5meteorDead : Meteor :=
  ⟨⟨0, 0, 0⟩, ⟨0, 0, 0⟩, ⟨0, 0, 0⟩, MeteorState.destroyed, 0, 12⟩

/-- A spawner at the concurrency cap (8 meteors), inside the first
difficulty window once 10 seconds elapse. -/
def c5state : SpawnerState := ⟨List.replicate 8 c5meteorDead, 0, 0, [], 1, 12⟩

/-- A fixed candidate-target stream for the C5 witness. -/
def c5cands : ℕ → Vec3 := fun _ => ⟨0, 0, 0⟩

/-- Witness for C5: a concrete at-cap frame in which the cadence fires —
the cap is preserved, the spawn attempt adds nothing, and the cadence
accumulator resets to zero. -/
theorem c5_witness :
    c5state.meteors.length ≤ 8 ∧
    (spawnerUpdate c5state 10 c5cands).meteors.length ≤ 8 ∧
    8 ≤ c5state.meteors.length ∧
    (spawnerUpdate c5state 10 c5cands).spawnTimer = 0 ∧
    (spawnerUpdate c5state 10 c5cands).meteors.length ≤ c5state.meteors.length := by
  have h8 : c5state.meteors.length = 8 := by simp [c5state]
  have hphase : getCurrentDifficultyPhase (c5state.gameTime + 10) difficultyPhases =
      some ⟨0, 20, 1.2⟩ := by
    norm_num [c5state, getCurrentDifficultyPhase, difficultyPhases]
  have hfire : DifficultyPhase.spawnInterval ⟨0, 20, 1.2⟩ * c5state.debugFrequencyMultiplier ≤
      c5state.spawnTimer + 10 := by
    norm_num [c5state]
  have hmain := c5_spawn_cap.2.2 c5state 10 c5cands ⟨0, 20, 1.2⟩ (le_of_eq h8.symm) hphase hfire
  exact ⟨le_of_eq h8, c5_spawn_cap.1 c5state 10 c5cands (le_of_eq h8),
    le_of_eq h8.symm, hmain.1, hmain.2⟩

/-- The unit x-direction is its own normalisation. -/
theorem vnormalize_unitX : vnormalize ⟨1, 0, 0⟩ = (⟨1, 0, 0⟩ : Vec3) := by
  unfold vnormalize vlength vscale
  norm_num

/-- C8: applyKnockback with direction (1,0,0) and force 5 on a grounded
player at rest sets the velocity to (5, 3, 0) — vertical component exactly
the guaranteed minimum 3 — clears the grounded flag and enters
knockback-recovery mode with the fixed 0.4 s timer; and while the knockback
flag is set, Player.update ignores the input and camera entirely (the frame
result — in particular the velocity — is identical for any two inputs), so
jump, punch and movement inputs have no effect until the recovery timer
elapses. -/
theorem c8_knockback :
    (∀ s : PlayerState, s.isGrounded = true → s.velocity = ⟨0, 0, 0⟩ →
      (Player.applyKnockback s ⟨1, 0, 0⟩ 5).velocity = ⟨5, 3, 0⟩ ∧
      (3 : ℝ) ≤ (Player.applyKnockback s ⟨1, 0, 0⟩ 5).velocity.y ∧
      (Player.applyKnockback s ⟨1, 0, 0⟩ 5).isGrounded = false ∧
      (Player.applyKnockback s ⟨1, 0, 0⟩ 5).isKnockedBack = true ∧
      (Player.applyKnockback s ⟨1, 0, 0⟩ 5).knockbackTimer = 0.4) ∧
    (∀ (s : PlayerState) (dt : ℝ) (inp1 inp2 : InputState) (cam1 cam2 : Option Vec3),
      s.isKnockedBack = true →
      Player.update s dt inp1 cam1 = Player.update s dt inp2 cam2) := by
  constructor
  · intro s _ _
    unfold Player.applyKnockback
    rw [vnormalize_unitX]
    unfold vscale
    norm_num
  · intro s dt inp1 inp2 cam1 cam2 h
    unfold Player.update
    rw [if_pos h, if_pos h]

/-- A grounded player at rest, used in the C8 witness. -/
def c8restState : PlayerState :=
  ⟨⟨0, 1, 0⟩, ⟨0, 0, 0⟩, true, false, 0, 0, false, 4, ⟨0, 0, -1⟩, ⟨⟨0, 0, 0⟩, 0⟩⟩

/-- A player in knockback recovery, used in the C8 witness. -/
def c8kbState : PlayerState :=
  ⟨⟨0, 1, 0⟩, ⟨5, 3, 0⟩, false, false, 0, 0.4, true, 4, ⟨0, 0, -1⟩, ⟨⟨0, 0, 0⟩, 0⟩⟩

/-- Two different input snapshots (jump and punch edges differ), used to
exhibit input independence during knockback recovery. -/
def c8inpA : InputState := ⟨1, 0, true, false⟩

/-- A second, different input snapshot for the C8 witness. -/
def c8inpB : InputState := ⟨0, -1, false, true⟩

/-- Witness for C8: the knockback scenario evaluated on concrete states. -/
theorem c8_witness :
    ((Player.applyKnockback c8restState ⟨1, 0, 0⟩ 5).velocity = ⟨5, 3, 0⟩ ∧
      (3 : ℝ) ≤ (Player.applyKnockback c8restState ⟨1, 0, 0⟩ 5).velocity.y ∧
      (Player.applyKnockback c8restState ⟨1, 0, 0⟩ 5).isGrounded = false ∧
      (Player.applyKnockback c8restState ⟨1, 0, 0⟩ 5).isKnockedBack = true ∧
      (Player.applyKnockback c8restState ⟨1, 0, 0⟩ 5).knockbackTimer = 0.4) ∧
    Player.update c8kbState 0.1 c8inpA (some ⟨0, 0, -1⟩) =
      Player.update c8kbState 0.1 c8inpB none := by
  exact ⟨c8_knockback.1 c8restState rfl rfl,
    c8_knockback.2 c8kbState 0.1 c8inpA c8inpB (some ⟨0, 0, -1⟩) none rfl⟩

/-- C2 (amended): characterisation of the melee auto-trigger.  After the
punch step of a frame the punch is active exactly when the player is
airborne at that step and the remaining time — the full punch duration 0.25
if the punch was inactive at entry (a fresh auto-activation), else the
stored timer — exceeds the frame's dt.  In particular the punch activates
on the grounded-to-airborne transition and deactivates on landing or on
timer expiry, but it also re-activates on the next frame of the same
airborne excursion whenever it is inactive, so an excursion longer than the
punch duration triggers it more than once. -/
theorem c2_punch_activation (s : PlayerState) (dt : ℝ) (cam : Option Vec3) :
    (Player.updatePunch s dt cam).punchActive = true ↔
      (s.isGrounded = false ∧
        0 < (if s.punchActive = true then s.punchTimer else 0.25) - dt) := by
  unfold Player.updatePunch punchAutoActivate punchTick
  cases hg : s.isGrounded <;> cases ha : s.punchActive <;> simp [hg, ha]
  · constructor
    · intro h
      by_contra hc
      rw [not_lt] at hc
      rw [if_pos hc] at h
      simp at h
    · intro h
      rw [if_neg (not_le.mpr h)]
  · constructor
    · intro h
      by_contra hc
      rw [not_lt] at hc
      rw [if_pos hc] at h
      simp at h
    · intro h
      rw [if_neg (not_le.mpr h)]

/-- C3 (amended): the stage-bounds clamp lives inside the movement step:
after Player.updateMovement both horizontal components lie in
[-5 + 0.5, 5 - 0.5].  (The claim as stated over the whole of Player.update
fails: updatePhysics integrates the velocity a second time after the clamp,
and knockback-recovery frames skip updateMovement — and hence the clamp —
entirely; see the counterexample.) -/
theorem c3_movement_clamp (s : PlayerState) (dt : ℝ) (inp : InputState)
    (cam : Option Vec3) :
    (-5 + 0.5 ≤ (Player.updateMovement s dt inp cam).position.x ∧
      (Player.updateMovement s dt inp cam).position.x ≤ 5 - 0.5) ∧
    (-5 + 0.5 ≤ (Player.updateMovement s dt inp cam).position.z ∧
      (Player.updateMovement s dt inp cam).position.z ≤ 5 - 0.5) := by
  have hclamp : ∀ (s' : PlayerState) (dt' : ℝ),
      (-5 + 0.5 ≤ (posClamp s' dt').position.x ∧
        (posClamp s' dt').position.x ≤ 5 - 0.5) ∧
      (-5 + 0.5 ≤ (posClamp s' dt').position.z ∧
        (posClamp s' dt').position.z ≤ 5 - 0.5) := by
    intro s' dt'
    unfold posClamp
    refine ⟨⟨le_max_left _ _, max_le (by norm_num) (min_le_left _ _)⟩,
      ⟨le_max_left _ _, max_le (by norm_num) (min_le_left _ _)⟩⟩
  unfold Player.updateMovement movementActive frictionStep
  split
  · exact hclamp _ _
  · split
    · exact hclamp _ _
    · exact hclamp _ _

/-- The position clamp does not touch the velocity. -/
theorem posClamp_velocity (s : PlayerState) (dt : ℝ) :
    (posClamp s dt).velocity = s.velocity := rfl

/-- The jump step never changes the horizontal velocity. -/
theorem updateJump_velocity_xz (s : PlayerState) (inp : InputState) :
    (Player.updateJump s inp).velocity.x = s.velocity.x ∧
    (Player.updateJump s inp).velocity.z = s.velocity.z := by
  unfold Player.updateJump
  split <;> exact ⟨rfl, rfl⟩

/-- The punch step never changes the velocity. -/
theorem updatePunch_velocity (s : PlayerState) (dt : ℝ) (cam : Option Vec3) :
    (Player.updatePunch s dt cam).velocity = s.velocity := by
  unfold Player.updatePunch punchTick punchAutoActivate
  split <;> split <;> first | rfl | (split <;> rfl)

/-- The ground-contact step never changes the horizontal velocity. -/
theorem updateGroundCheck_velocity_xz (s : PlayerState) :
    (Player.updateGroundCheck s).velocity.x = s.velocity.x ∧
    (Player.updateGroundCheck s).velocity.z = s.velocity.z := by
  unfold Player.updateGroundCheck
  split
  · exact ⟨rfl, rfl⟩
  · split <;> exact ⟨rfl, rfl⟩

/-- C9 (amended): on a Player.update frame that is not a knockback-recovery
frame, with the player grounded, zero movement intent, dt > 0 and a nonzero
horizontal velocity, the horizontal speed strictly decreases and is bounded
by the frame-rate-independent factor 0.1 ^ dt times the previous speed
(with equality unless the frame triggers the fall-off-stage respawn, which
zeroes the velocity outright).  The original claim without the
no-knockback condition fails: a grounded knockback-recovery frame skips the
friction branch and leaves the horizontal speed unchanged — see the
counterexample. -/
theorem c9_friction_decay (s : PlayerState) (dt : ℝ) (inp : InputState) (cam : Option Vec3)
    (hkb : s.isKnockedBack = false) (hg : s.isGrounded = true)
    (hmx : inp.movementX = 0) (hmz : inp.movementZ = 0) (hdt : 0 < dt)
    (hv : ¬(s.velocity.x = 0 ∧ s.velocity.z = 0)) :
    horizSpeed (Player.update s dt inp cam) ≤ Real.rpow 0.1 dt * horizSpeed s ∧
    horizSpeed (Player.update s dt inp cam) < horizSpeed s := by
  set c : ℝ := Real.rpow 0.1 dt with hcdef
  have hc0 : 0 < c := Real.rpow_pos_of_pos (by norm_num) dt
  have hc1 : c < 1 := Real.rpow_lt_one (by norm_num) (by norm_num) hdt
  have hm0 : 0 < horizSpeed s := by
    unfold horizSpeed vlength
    apply Real.sqrt_pos.mpr
    rcases not_and_or.mp hv with h | h
    · nlinarith [mul_self_nonneg s.velocity.z, (mul_self_pos).mpr h]
    · nlinarith [mul_self_nonneg s.velocity.x, (mul_self_pos).mpr h]
  have hmnn : 0 ≤ horizSpeed s := le_of_lt hm0
  have hupd : Player.update s dt inp cam =
      Player.updateGroundCheck
        (Player.updatePhysics
          (Player.updatePunch (Player.updateJump (Player.updateMovement s dt inp cam) inp)
            dt cam) dt) := by
    unfold Player.update
    rw [if_neg (by simp [hkb])]
  have hmv : Player.updateMovement s dt inp cam =
      posClamp { s with velocity :=
        ⟨s.velocity.x * c, s.velocity.y, s.velocity.z * c⟩ } dt := by
    unfold Player.updateMovement frictionStep
    rw [if_neg (by simp [hmx, hmz, vlength]), if_pos hg]
  set s3 : PlayerState :=
    Player.updateJump (Player.updateMovement s dt inp cam) inp with hs3
  have hs3x : s3.velocity.x = s.velocity.x * c := by
    rw [hs3, (updateJump_velocity_xz _ _).1, hmv, posClamp_velocity]
  have hs3z : s3.velocity.z = s.velocity.z * c := by
    rw [hs3, (updateJump_velocity_xz _ _).2, hmv, posClamp_velocity]
  set s4 : PlayerState := Player.updatePunch s3 dt cam with hs4
  have hs4x : s4.velocity.x = s.velocity.x * c := by
    rw [hs4, updatePunch_velocity]; exact hs3x
  have hs4z : s4.velocity.z = s.velocity.z * c := by
    rw [hs4, updatePunch_velocity]; exact hs3z
  set s5 : PlayerState := integrateStep s4 dt with hs5
  have hs5x : s5.velocity.x = s.velocity.x * c := hs4x
  have hs5z : s5.velocity.z = s.velocity.z * c := hs4z
  have hfinal : ∀ fx fz : ℝ,
      (respawnCheck s5).velocity.x = fx → (respawnCheck s5).velocity.z = fz →
      horizSpeed (Player.update s dt inp cam) = Real.sqrt (fx * fx + 0 * 0 + fz * fz) := by
    intro fx fz hx hz
    rw [hupd]
    show horizSpeed (Player.updateGroundCheck (respawnCheck (integrateStep s4 dt))) = _
    unfold horizSpeed vlength
    rw [(updateGroundCheck_velocity_xz _).1, (updateGroundCheck_velocity_xz _).2]
    rw [show integrateStep s4 dt = s5 from hs5.symm, hx, hz]
  by_cases hr : s5.position.y < -10
  · have hrw : respawnCheck s5 =
        { s5 with position := ⟨0, 1, 0⟩
                  velocity := ⟨0, 0, 0⟩
                  isGrounded := false } := by
      unfold respawnCheck
      rw [if_pos hr]
    have h0 : horizSpeed (Player.update s dt inp cam) = 0 := by
      rw [hfinal 0 0 (by rw [hrw]) (by rw [hrw])]
      simp
    rw [h0]
    exact ⟨mul_nonneg (le_of_lt hc0) hmnn, hm0⟩
  · have hrw : respawnCheck s5 = s5 := by
      unfold respawnCheck
      rw [if_neg hr]
    have heq : horizSpeed (Player.update s dt inp cam) = c * horizSpeed s := by
      rw [hfinal (s.velocity.x * c) (s.velocity.z * c) (by rw [hrw]; exact hs5x)
        (by rw [hrw]; exact hs5z)]
      unfold horizSpeed vlength
      have harg : s.velocity.x * c * (s.velocity.x * c) + 0 * 0 +
          s.velocity.z * c * (s.velocity.z * c) =
          c ^ 2 * (s.velocity.x * s.velocity.x + 0 * 0 + s.velocity.z * s.velocity.z) := by
        ring
      rw [harg, Real.sqrt_mul (sq_nonneg c), Real.sqrt_sq (le_of_lt hc0)]
    rw [heq]
    constructor
    · exact le_of_eq rfl
    · calc c * horizSpeed s < 1 * horizSpeed s := by
            exact mul_lt_mul_of_pos_right hc1 hm0
        _ = horizSpeed s := one_mul _

/-- A grounded player moving along x, used in the C9 witness. -/
def c9wState : PlayerState :=
  ⟨⟨0, 1, 0⟩, ⟨1, 0, 0⟩, true, false, 0, 0, false, 4, ⟨0, 0, -1⟩, ⟨⟨0, 0, 0⟩, 0⟩⟩

/-- A zero input snapshot. -/
def inputZero : InputState := ⟨0, 0, false, false⟩

/-- Witness for C9 (amended): friction on a concrete grounded frame with
zero intent and horizontal speed 1. -/
theorem c9_witness :
    horizSpeed (Player.update c9wState 1 inputZero none) ≤
      Real.rpow 0.1 1 * horizSpeed c9wState ∧
    horizSpeed (Player.update c9wState 1 inputZero none) < horizSpeed c9wState :=
  c9_friction_decay c9wState 1 inputZero none rfl rfl rfl rfl (by norm_num)
    (by simp [c9wState])

/-- The physics step never changes the punch fields. -/
theorem updatePhysics_punch_fields (s : PlayerState) (dt : ℝ) :
    (Player.updatePhysics s dt).punchActive = s.punchActive ∧
    (Player.updatePhysics s dt).punchSphere = s.punchSphere := by
  unfold Player.updatePhysics respawnCheck integrateStep
  split <;> exact ⟨rfl, rfl⟩

/-- The ground-contact step never changes the punch fields. -/
theorem updateGroundCheck_punch_fields (s : PlayerState) :
    (Player.updateGroundCheck s).punchActive = s.punchActive ∧
    (Player.updateGroundCheck s).punchSphere = s.punchSphere := by
  unfold Player.updateGroundCheck
  split
  · exact ⟨rfl, rfl⟩
  · split <;> exact ⟨rfl, rfl⟩

/-- The jump step never changes the position. -/
theorem updateJump_position (s : PlayerState) (inp : InputState) :
    (Player.updateJump s inp).position = s.position := by
  unfold Player.updateJump
  split <;> rfl

/-- Whenever the punch step leaves the punch active, it has placed the
punch sphere at the position it was given, offset 0.7 along the aim
direction: both the fresh-activation branch and the continuation branch
call the same sphere placement. -/
theorem updatePunch_sphere_of_active (s : PlayerState) (dt : ℝ) (cam : Option Vec3)
    (h : (Player.updatePunch s dt cam).punchActive = true) :
    (Player.updatePunch s dt cam).punchSphere = punchSphereAt s.position cam := by
  unfold Player.updatePunch punchAutoActivate punchTick at h ⊢
  by_cases h1 : s.isGrounded = false ∧ s.punchActive = false
  · rw [if_pos h1] at h ⊢
    simp only at h ⊢
    by_cases h2 : 0.25 - dt ≤ 0 ∨ s.isGrounded = true
    · rw [if_pos trivial, if_pos h2] at h
      simp at h
    · rw [if_pos trivial, if_neg h2] at h ⊢
  · rw [if_neg h1] at h ⊢
    by_cases h2 : s.punchActive = true
    · rw [if_pos h2] at h ⊢
      by_cases h3 : s.punchTimer - dt ≤ 0 ∨ s.isGrounded = true
      · rw [if_pos h3] at h
        simp at h
      · rw [if_neg h3] at h ⊢
    · rw [if_neg h2] at h
      exact absurd h h2

/-- C10: the melee aim never depends on the movement intent or the stored
facing direction — whenever the punch is active at the end of a
(non-knockback) Player.update frame, the punch sphere equals the sphere of
radius 0.6 centred at the player's position (as of the punch step, i.e.
after the movement clamp and before gravity integration) plus the fixed
offset 0.7 along punchDirection cam, which is the horizontal projection of
the supplied camera-forward direction (renormalised) and reads nothing
else; with no camera direction it is the fixed world direction
(0, 0, -1). -/
theorem c10_punch_sphere (s : PlayerState) (dt : ℝ) (inp : InputState) (cam : Option Vec3)
    (hkb : s.isKnockedBack = false)
    (hact : (Player.update s dt inp cam).punchActive = true) :
    (Player.update s dt inp cam).punchSphere =
      punchSphereAt (Player.updateMovement s dt inp cam).position cam ∧
    (punchSphereAt (Player.updateMovement s dt inp cam).position cam).center =
      vadd (Player.updateMovement s dt inp cam).position (vscale (punchDirection cam) 0.7) ∧
    (Player.update s dt inp cam).punchSphere.radius = 0.6 ∧
    punchDirection none = ⟨0, 0, -1⟩ := by
  have hupd : Player.update s dt inp cam =
      Player.updateGroundCheck
        (Player.updatePhysics
          (Player.updatePunch (Player.updateJump (Player.updateMovement s dt inp cam) inp)
            dt cam) dt) := by
    unfold Player.update
    rw [if_neg (by simp [hkb])]
  set s2 : PlayerState := Player.updateJump (Player.updateMovement s dt inp cam) inp with hs2
  have hact2 : (Player.updatePunch s2 dt cam).punchActive = true := by
    rw [hupd, (updateGroundCheck_punch_fields _).1, (updatePhysics_punch_fields _ _).1] at hact
    exact hact
  have hsphere : (Player.update s dt inp cam).punchSphere =
      punchSphereAt s2.position cam := by
    rw [hupd, (updateGroundCheck_punch_fields _).2, (updatePhysics_punch_fields _ _).2]
    exact updatePunch_sphere_of_active s2 dt cam hact2
  have hpos : s2.position = (Player.updateMovement s dt inp cam).position :=
    updateJump_position _ _
  refine ⟨by rw [hsphere, hpos], rfl, ?_, rfl⟩
  rw [hsphere, hpos]
  rfl

/-- An input snapshot with a jump edge and no movement intent. -/
def inputJump : InputState := ⟨0, 0, true, false⟩

/-- A grounded player at rest used in the C10 witness. -/
def c10s : PlayerState :=
  ⟨⟨0, 5, 0⟩, ⟨0, 0, 0⟩, true, false, 0, 0, false, 4, ⟨0, 0, -1⟩, ⟨⟨0, 0, 0⟩, 0⟩⟩

/-- Witness for C10: a concrete jump frame leaves the punch active, and the
punch sphere sits 0.7 ahead of the punch-step position along the default
aim direction with radius 0.6. -/
theorem c10_witness :
    (Player.update c10s 0.1 inputJump none).punchActive = true ∧
    (Player.update c10s 0.1 inputJump none).punchSphere =
      punchSphereAt (Player.updateMovement c10s 0.1 inputJump none).position none ∧
    (punchSphereAt (Player.updateMovement c10s 0.1 inputJump none).position none).center =
      vadd (Player.updateMovement c10s 0.1 inputJump none).position
        (vscale (punchDirection none) 0.7) ∧
    (Player.update c10s 0.1 inputJump none).punchSphere.radius = 0.6 ∧
    punchDirection none = ⟨0, 0, -1⟩ := by
  have hact : (Player.update c10s 0.1 inputJump none).punchActive = true := by
    norm_num [c10s, inputJump, Player.update, Player.updateMovement, frictionStep, posClamp,
      Player.updateJump, Player.updatePunch, punchAutoActivate, punchTick, punchSphereAt,
      punchDirection, Player.updatePhysics, integrateStep, respawnCheck,
      Player.updateGroundCheck, vlength, vadd, vscale, Real.sqrt_zero]
  have hmain := c10_punch_sphere c10s 0.1 inputJump none rfl hact
  exact ⟨hact, hmain.1, hmain.2.1, hmain.2.2.1, hmain.2.2.2⟩

/-- A fixed candidate-target stream (the spawner draws are irrelevant to
the concrete traces below). -/
def candsZero : ℕ → Vec3 := fun _ => ⟨0, 0, 0⟩

/-- A Falling meteor 0.5 above the target footprint, about to reach the
terrain during a 0.1 s frame. -/
def c1meteor : Meteor :=
  ⟨⟨0, 0.5, 0⟩, ⟨0, -12, 0⟩, ⟨0, 0, 0⟩, MeteorState.falling, 1, 12⟩

/-- A spawner holding only c1meteor, with the session clock beyond every
difficulty window (so the frame attempts no new spawn). -/
def c1spawner : SpawnerState := ⟨[c1meteor], 0, 100, [], 1, 12⟩

/-- C1: the code evaluated at the failing input.  The meteor becomes
Exploded during this frame's lifecycle update, and the same
MeteorSpawner.update call's cleanup pass (whose dt = 0 re-evaluation
returns the keep-alive flag false for any terminal state) already removes
it: the spawner's active set is empty at the end of spawnerUpdate, which in
the per-frame order of Game.updateGameEntities runs before
CollisionSystem.update.  The claim's retention of a freshly Exploded hazard
for that frame's collision resolution therefore does not hold — the
explosion-versus-creatures/player pass can never see an Exploded hazard. -/
theorem c1_exploded_purged_same_frame :
    (c1meteor.update 0.1).1.state = MeteorState.exploded ∧
    (spawnerUpdate c1spawner 0.1 candsZero).meteors = [] := by
  have hterr : ∀ x z : ℝ, -(7 / 10 : ℝ) ≤ getTerrainHeight x z + 9 / 20 := fun x z => by
    have := getTerrainHeight_lb x z
    linarith
  constructor
  · norm_num [c1meteor, Meteor.update, Meteor.updateFalling, vadd, vscale, hterr]
  · norm_num [c1spawner, c1meteor, spawnerUpdate, getCurrentDifficultyPhase,
      difficultyPhases, updateMeteors, cleanupMeteors, Meteor.update, Meteor.updateFalling,
      vadd, vscale, hterr]

/-- A Falling meteor 1.5 above its footprint that reaches the terrain
during a 0.15 s frame. -/
def c4meteor : Meteor :=
  ⟨⟨0, 1.5, 0⟩, ⟨0, -12, 0⟩, ⟨0, 0, 0⟩, MeteorState.falling, 1, 12⟩

/-- A player with an active melee punch whose hitbox overlaps c4meteor. -/
def c4player : PlayerState :=
  ⟨⟨0, 1, 0.7⟩, ⟨0, 0, 0⟩, false, true, 0.2, 0, false, 4, ⟨0, 0, -1⟩, ⟨⟨0, 1, 0⟩, 0.6⟩⟩

/-- A spawner holding only c4meteor, beyond every difficulty window. -/
def c4spawner : SpawnerState := ⟨[c4meteor], 0, 100, [], 1, 12⟩

/-- Counterexample to C4 as stated: within a single frame this Falling
hazard both overlaps the player's active melee hitbox (centre distance 0.5
at most 0.6 + 0.45) and reaches terrain height, yet melee destruction does
not take precedence — the spawner's lifecycle update (which Game:
updateGameEntities runs before CollisionSystem.update) transitions it to
Exploded and purges it, so collision pass 1 finds no hazard to destroy and
the hazard's final state is Exploded, not Destroyed. -/
theorem c4_counterexample :
    c4meteor.state = MeteorState.falling ∧
    c4player.punchActive = true ∧
    sphereIntersectsSphere c4player.punchSphere c4meteor.getBoundingSphere ∧
    (c4meteor.update 0.15).1.state = MeteorState.exploded ∧
    MeteorState.exploded ≠ MeteorState.destroyed ∧
    (spawnerUpdate c4spawner 0.15 candsZero).meteors = [] ∧
    checkPunchVsMeteors c4player (spawnerUpdate c4spawner 0.15 candsZero).meteors = [] := by
  have hterr : ∀ x z : ℝ, -(3 / 10 : ℝ) ≤ getTerrainHeight x z + 9 / 20 := fun x z => by
    have := getTerrainHeight_lb x z
    linarith
  have hsq : Real.sqrt (1 / 4 : ℝ) = 1 / 2 := by
    rw [show (1 / 4 : ℝ) = (1 / 2) ^ 2 by norm_num, Real.sqrt_sq (by norm_num)]
  have hspawn : (spawnerUpdate c4spawner 0.15 candsZero).meteors = [] := by
    norm_num [c4spawner, c4meteor, spawnerUpdate, getCurrentDifficultyPhase,
      difficultyPhases, updateMeteors, cleanupMeteors, Meteor.update, Meteor.updateFalling,
      vadd, vscale, hterr]
  refine ⟨rfl, rfl, ?_, ?_, by decide, hspawn, ?_⟩
  · norm_num [sphereIntersectsSphere, c4player, c4meteor, Meteor.getBoundingSphere,
      vdist, vlength, vsub, hsq]
  · norm_num [c4meteor, Meteor.update, Meteor.updateFalling, vadd, vscale, hterr]
  · rw [hspawn]
    simp [checkPunchVsMeteors, Player.getPunchSphere, c4player]

/-- A meteor kept by the cleanup evaluation is never in the Destroyed
state: cleanup drops every meteor that is terminal at entry, and the dt = 0
re-evaluation can move a kept meteor only to Falling or Exploded. -/
theorem kept_meteor_not_destroyed (m m' : Meteor)
    (h : (m.update 0).2 = true) (he : (m.update 0).1 = m') :
    m'.state ≠ MeteorState.destroyed := by
  cases hstate : m.state <;>
    simp only [Meteor.update, hstate] at h he
  · unfold Meteor.updateTelegraph at he
    split at he <;> rw [← he] <;> simp
  · unfold Meteor.updateFalling at he
    split at he <;> rw [← he] <;> simp
  · exact absurd h (by simp)
  · exact absurd h (by simp)

/-- C4 (amended): terrain impact takes precedence over melee destruction.
The cleanup evaluation inside the same spawner update returns the
keep-alive flag false for any hazard already terminal (in particular one
that just Exploded on reaching terrain), so such a hazard is purged before
collision pass 1 runs; pass 1 moreover leaves any non-Falling hazard
untouched; and consequently no hazard in the spawner's active set after a
spawner update is ever Destroyed there — a hazard that would reach terrain
height ends the frame Exploded, not Destroyed. -/
theorem c4_terrain_impact_precedence :
    (∀ m : Meteor,
      m.state = MeteorState.exploded ∨ m.state = MeteorState.destroyed →
      (m.update 0).2 = false) ∧
    (∀ (ps : Sphere) (m : Meteor), m.state ≠ MeteorState.falling →
      punchHitStep ps m = m) ∧
    (∀ (s : SpawnerState) (dt : ℝ) (cands : ℕ → Vec3),
      ∀ m' ∈ (spawnerUpdate s dt cands).meteors, m'.state ≠ MeteorState.destroyed) := by
  refine ⟨?_, ?_, ?_⟩
  · intro m h
    rcases h with h | h <;> simp [Meteor.update, h]
  · intro ps m h
    unfold punchHitStep
    rw [if_neg]
    intro hc
    exact h hc.1
  · intro s dt cands m' hm'
    unfold spawnerUpdate at hm'
    dsimp only at hm'
    rw [cleanupMeteors, List.mem_filterMap] at hm'
    obtain ⟨a, _, hfa⟩ := hm'
    by_cases hk : (a.update 0).2 = true
    · rw [if_pos hk] at hfa
      exact kept_meteor_not_destroyed a m' hk (Option.some.inj hfa)
    · rw [if_neg hk] at hfa
      exact absurd hfa (by simp)

/-- An Exploded meteor, for the C4 witness. -/
def c4expMeteor : Meteor :=
  ⟨⟨0, 0, 0⟩, ⟨0, -12, 0⟩, ⟨0, 0, 0⟩, MeteorState.exploded, 2, 12⟩

/-- A Telegraph meteor, for the C4 witness. -/
def c4telMeteor : Meteor :=
  ⟨⟨0, 12, 0⟩, ⟨0, 0, 0⟩, ⟨0, 0, 0⟩, MeteorState.telegraph, 0, 12⟩

/-- A spawner holding only the telegraph meteor, beyond every difficulty
window. -/
def c4wspawner : SpawnerState := ⟨[c4telMeteor], 0, 100, [], 1, 12⟩

/-- The telegraph meteor after one 0.1 s spawner frame (timer advanced,
still Telegraph). -/
def c4keptMeteor : Meteor :=
  ⟨⟨0, 12, 0⟩, ⟨0, 0, 0⟩, ⟨0, 0, 0⟩, MeteorState.telegraph, 0.1, 12⟩

/-- Witness for C4 (amended): concrete instances — the cleanup evaluation
rejects an Exploded meteor, pass 1 leaves a Telegraph meteor untouched, and
a meteor surviving a concrete spawner frame is not Destroyed. -/
theorem c4_witness :
    (c4expMeteor.update 0).2 = false ∧
    punchHitStep ⟨⟨0, 0, 0⟩, 1⟩ c4telMeteor = c4telMeteor ∧
    (spawnerUpdate c4wspawner 0.1 candsZero).meteors = [c4keptMeteor] ∧
    c4keptMeteor.state ≠ MeteorState.destroyed := by
  have heq : (spawnerUpdate c4wspawner 0.1 candsZero).meteors = [c4keptMeteor] := by
    norm_num [c4wspawner, c4telMeteor, c4keptMeteor, spawnerUpdate,
      getCurrentDifficultyPhase, difficultyPhases, updateMeteors, cleanupMeteors,
      Meteor.update, Meteor.updateTelegraph, List.filterMap_cons, List.filterMap_nil]
  refine ⟨?_, ?_, heq, ?_⟩
  · exact c4_terrain_impact_precedence.1 c4expMeteor (Or.inl rfl)
  · exact c4_terrain_impact_precedence.2.1 ⟨⟨0, 0, 0⟩, 1⟩ c4telMeteor (by simp [c4telMeteor])
  · exact c4_terrain_impact_precedence.2.2 c4wspawner 0.1 candsZero c4keptMeteor
      (by rw [heq]; simp)

/-- A player in a knockback-recovery frame at the x-clamp boundary moving
outwards. -/
def c3state : PlayerState :=
  ⟨⟨4.5, 10, 0⟩, ⟨5, 0, 0⟩, false, false, 0, 0.4, true, 4, ⟨0, 0, -1⟩, ⟨⟨0, 0, 0⟩, 0⟩⟩

/-- Counterexample to C3 as stated: a Player.update frame during knockback
recovery (a motion source the claim explicitly includes) moves x from the
clamp boundary 4.5 to 5, outside [-5 + 0.5, 5 - 0.5] — knockback frames
run only gravity integration and ground contact, never the clamp. -/
theorem c3_counterexample :
    c3state.position.x ≤ 5 - 0.5 ∧
    -5 + 0.5 ≤ c3state.position.x ∧
    (Player.update c3state 0.1 inputZero none).position.x = 5 ∧
    ¬((Player.update c3state 0.1 inputZero none).position.x ≤ 5 - 0.5) := by
  have hterr : ∀ x z : ℝ, ¬((491 / 50 : ℝ) ≤ getTerrainHeight x z + 3 / 5) := fun x z => by
    have := getTerrainHeight_ub x z
    intro h
    linarith
  have hx : (Player.update c3state 0.1 inputZero none).position.x = 5 := by
    norm_num [c3state, inputZero, Player.update, Player.updateKnockback, knockbackTick,
      Player.updatePhysics, integrateStep, respawnCheck, Player.updateGroundCheck,
      vadd, vscale, hterr]
  refine ⟨by norm_num [c3state], by norm_num [c3state], hx, ?_⟩
  rw [hx]
  norm_num

/-- A grounded player still inside knockback recovery, sliding along x. -/
def c9cState : PlayerState :=
  ⟨⟨0, 1.25, 0⟩, ⟨5, 0, 0⟩, true, false, 0, 0.2, true, 4, ⟨0, 0, -1⟩, ⟨⟨0, 0, 0⟩, 0⟩⟩

/-- Counterexample to C9 as stated: a grounded knockback-recovery frame
satisfies every condition of the claim (grounded, zero intent, dt > 0,
nonzero horizontal velocity) yet the horizontal speed does not decrease at
all — the friction branch is skipped during knockback recovery, so the
horizontal speed stays exactly 5. -/
theorem c9_counterexample :
    c9cState.isGrounded = true ∧
    (0 : ℝ) < 0.2 ∧
    inputZero.movementX = 0 ∧
    inputZero.movementZ = 0 ∧
    ¬(c9cState.velocity.x = 0 ∧ c9cState.velocity.z = 0) ∧
    horizSpeed (Player.update c9cState 0.2 inputZero none) = horizSpeed c9cState ∧
    ¬(horizSpeed (Player.update c9cState 0.2 inputZero none) < horizSpeed c9cState) := by
  have hx : (Player.update c9cState 0.2 inputZero none).velocity.x = 5 := by
    norm_num [c9cState, inputZero, Player.update, Player.updateKnockback, knockbackTick,
      Player.updatePhysics, integrateStep, respawnCheck, Player.updateGroundCheck,
      vadd, vscale]
  have hz : (Player.update c9cState 0.2 inputZero none).velocity.z = 0 := by
    norm_num [c9cState, inputZero, Player.update, Player.updateKnockback, knockbackTick,
      Player.updatePhysics, integrateStep, respawnCheck, Player.updateGroundCheck,
      vadd, vscale]
  have heq : horizSpeed (Player.update c9cState 0.2 inputZero none) = horizSpeed c9cState := by
    unfold horizSpeed vlength
    rw [hx, hz]
    norm_num [c9cState]
  refine ⟨rfl, by norm_num, rfl, rfl, by norm_num [c9cState], heq, ?_⟩
  rw [heq]
  exact lt_irrefl _

/-- A grounded player at rest on the terrain at the stage origin, about to
jump. -/
def c2s0 : PlayerState :=
  ⟨⟨0, getTerrainHeight 0 0 + 0.6, 0⟩, ⟨0, 0, 0⟩, true, false, 0, 0, false, 4,
   ⟨0, 0, -1⟩, ⟨⟨0, 0, 0⟩, 0⟩⟩

/-- Frame 1 of the C2 trace: jump frame (dt = 0.1). -/
def c2f1 : PlayerState := Player.update c2s0 0.1 inputJump none

/-- Frame 2 of the C2 trace. -/
def c2f2 : PlayerState := Player.update c2f1 0.1 inputZero none

/-- Frame 3 of the C2 trace. -/
def c2f3 : PlayerState := Player.update c2f2 0.1 inputZero none

/-- Frame 4 of the C2 trace. -/
def c2f4 : PlayerState := Player.update c2f3 0.1 inputZero none

/-- The state after frame 1: airborne, punch freshly auto-activated, its
timer already decremented once. -/
def c2s1 : PlayerState :=
  ⟨⟨0, getTerrainHeight 0 0 + 1.27, 0⟩, ⟨0, 6.7, 0⟩, false, true, 0.15, 0, false, 4,
   ⟨0, 0, -1⟩, ⟨⟨0, getTerrainHeight 0 0 + 0.6, -0.7⟩, 0.6⟩⟩

/-- The state after frame 2: still airborne, punch still active. -/
def c2s2 : PlayerState :=
  ⟨⟨0, getTerrainHeight 0 0 + 1.76, 0⟩, ⟨0, 4.9, 0⟩, false, true, 0.05, 0, false, 4,
   ⟨0, 0, -1⟩, ⟨⟨0, getTerrainHeight 0 0 + 1.27, -0.7⟩, 0.6⟩⟩

/-- The state after frame 3: still airborne, punch expired and
deactivated. -/
def c2s3 : PlayerState :=
  ⟨⟨0, getTerrainHeight 0 0 + 2.07, 0⟩, ⟨0, 3.1, 0⟩, false, false, -0.05, 0, false, 4,
   ⟨0, 0, -1⟩, ⟨⟨0, getTerrainHeight 0 0 + 1.27, -0.7⟩, 0.6⟩⟩

/-- The state after frame 4: still airborne, punch auto-activated a second
time within the same airborne excursion. -/
def c2s4 : PlayerState :=
  ⟨⟨0, getTerrainHeight 0 0 + 2.2, 0⟩, ⟨0, 1.3, 0⟩, false, true, 0.15, 0, false, 4,
   ⟨0, 0, -1⟩, ⟨⟨0, getTerrainHeight 0 0 + 2.07, -0.7⟩, 0.6⟩⟩

/-- Counterexample to C2 as stated: within a single airborne excursion
(the grounded flag is false on all four frames after the jump) the punch
activates on frame 1, expires on frame 3, and activates a second time on
frame 4 — refuting "never activated a second time within the same airborne
excursion". -/
theorem c2_counterexample :
    c2s0.isGrounded = true ∧
    c2s0.punchActive = false ∧
    c2f1.isGrounded = false ∧ c2f1.punchActive = true ∧
    c2f2.isGrounded = false ∧ c2f2.punchActive = true ∧
    c2f3.isGrounded = false ∧ c2f3.punchActive = false ∧
    c2f4.isGrounded = false ∧ c2f4.punchActive = true := by
  have hr1 : ¬(getTerrainHeight 0 0 + 3 / 5 + 67 / 100 < (-10 : ℝ)) := by
    have := getTerrainHeight_lb 0 0
    intro h
    linarith
  have hr2 : ¬(getTerrainHeight 0 0 + 127 / 100 + 49 / 100 < (-10 : ℝ)) := by
    have := getTerrainHeight_lb 0 0
    intro h
    linarith
  have hr3 : ¬(getTerrainHeight 0 0 + 44 / 25 + 31 / 100 < (-10 : ℝ)) := by
    have := getTerrainHeight_lb 0 0
    intro h
    linarith
  have hr4 : ¬(getTerrainHeight 0 0 + 207 / 100 + 13 / 100 < (-10 : ℝ)) := by
    have := getTerrainHeight_lb 0 0
    intro h
    linarith
  have h1 : c2f1 = c2s1 := by
    norm_num [c2f1, c2s0, c2s1, inputJump, Player.update, Player.updateMovement,
      frictionStep, posClamp, Player.updateJump, Player.updatePunch, punchAutoActivate,
      punchTick, punchSphereAt, punchDirection, Player.updatePhysics, integrateStep,
      respawnCheck, Player.updateGroundCheck, vlength, vadd, vscale, Real.sqrt_zero, hr1]
    ring
  have h2 : c2f2 = c2s2 := by
    rw [c2f2, h1]
    norm_num [c2s1, c2s2, inputZero, Player.update, Player.updateMovement,
      frictionStep, posClamp, Player.updateJump, Player.updatePunch, punchAutoActivate,
      punchTick, punchSphereAt, punchDirection, Player.updatePhysics, integrateStep,
      respawnCheck, Player.updateGroundCheck, vlength, vadd, vscale, Real.sqrt_zero, hr2]
    ring
  have h3 : c2f3 = c2s3 := by
    rw [c2f3, h2]
    norm_num [c2s2, c2s3, inputZero, Player.update, Player.updateMovement,
      frictionStep, posClamp, Player.updateJump, Player.updatePunch, punchAutoActivate,
      punchTick, punchSphereAt, punchDirection, Player.updatePhysics, integrateStep,
      respawnCheck, Player.updateGroundCheck, vlength, vadd, vscale, Real.sqrt_zero, hr3]
    ring
  have h4 : c2f4 = c2s4 := by
    rw [c2f4, h3]
    norm_num [c2s3, c2s4, inputZero, Player.update, Player.updateMovement,
      frictionStep, posClamp, Player.updateJump, Player.updatePunch, punchAutoActivate,
      punchTick, punchSphereAt, punchDirection, Player.updatePhysics, integrateStep,
      respawnCheck, Player.updateGroundCheck, vlength, vadd, vscale, Real.sqrt_zero, hr4]
    ring
  refine ⟨rfl, rfl, ?_, ?_, ?_, ?_, ?_, ?_, ?_, ?_⟩ <;>
    simp [h1, h2, h3, h4, c2s1, c2s2, c2s3, c2s4]

end MeteorGame
